import Mathlib

/-!
# Verification of the telemetry instrumentation layer

Shallow embedding of `packages/core/src/telemetry/semantic.ts`:
the semantic converter `toSemanticMessage` and the logging decorator
`LoggingContentGenerator`, with theorems checking the specification's
claims against the embedded code.

JavaScript-specific behaviour is modelled explicitly:
* optional object fields become `Option`;
* the truthiness tests of the source (`if (part.text)`, `if (content.parts)`,
  `x || y`) are embedded as written, so an empty string is falsy while an
  empty array or any object is truthy;
* `JSON.stringify` omits fields whose value is `undefined`, and returns
  `undefined` (not a string) when applied to `undefined` itself.
-/

namespace Telemetry

/-- A JSON-representable value: the structured "argument bag" / "response bag"
payloads carried by function-call and function-response segments
(`Record<string, unknown>` in the source, restricted to JSON values). -/
inductive Json where
  | null
  | bool (b : Bool)
  | num (n : Int)
  | str (s : String)
  | arr (elems : List Json)
  | obj (fields : List (String × Json))

/-- Escape a character for a JSON string literal, as `JSON.stringify` does. -/
def jsonEscapeChar (c : Char) : String :=
  if c = '\\' then "\\\\"
  else if c = '"' then "\\\""
  else if c = '\n' then "\\n"
  else if c = '\t' then "\\t"
  else if c = '\r' then "\\r"
  else String.singleton c

/-- Escape a string body for JSON. -/
def jsonEscape (s : String) : String :=
  String.join (s.toList.map jsonEscapeChar)

/-- A JSON string literal: `"..."` with the body escaped. -/
def jsonQuote (s : String) : String :=
  "\"" ++ jsonEscape s ++ "\""

mutual

/-- `JSON.stringify` on a JSON value (field order = insertion order;
no key sorting, matching JavaScript). -/
def jsonOfJson : Json → String
  | .null => "null"
  | .bool b => if b then "true" else "false"
  | .num n => toString n
  | .str s => jsonQuote s
  | .arr elems => "[" ++ jsonOfArr elems ++ "]"
  | .obj fields => "\x7b" ++ jsonOfObj fields ++ "\x7d"

/-- Comma-separated serialization of a JSON array's elements. -/
def jsonOfArr : List Json → String
  | [] => ""
  | [x] => jsonOfJson x
  | x :: y :: rest => jsonOfJson x ++ "," ++ jsonOfArr (y :: rest)

/-- Comma-separated serialization of a JSON object's fields. -/
def jsonOfObj : List (String × Json) → String
  | [] => ""
  | [(k, v)] => jsonQuote k ++ ":" ++ jsonOfJson v
  | (k, v) :: f :: rest => jsonQuote k ++ ":" ++ jsonOfJson v ++ "," ++ jsonOfObj (f :: rest)

end

/-- A function-call segment (`FunctionCall` from `@google/genai`): every
field is optional. -/
structure FunctionCall where
  name : Option String
  id : Option String
  args : Option Json

/-- A function-response segment (`FunctionResponse` from `@google/genai`). -/
structure FunctionResponse where
  name : Option String
  id : Option String
  response : Option Json

/-- One segment of a turn (`Part` from `@google/genai`): at most one of the
three recognized fields is normally populated, but none is required. -/
structure Part where
  text : Option String
  functionCall : Option FunctionCall
  functionResponse : Option FunctionResponse

/-- One conversational turn (`Content` from `@google/genai`): an optional
role label and an optional ordered list of segments. -/
structure Content where
  role : Option String
  parts : Option (List Part)

/-- A normalized message part: the closed variant set of the output schema
(`TextPart`, `ToolCallRequestPart`, `ToolCallResponsePart`, `ReasoningPart`,
`GenericPart` classes in the source). -/
inductive MessagePart where
  | text (content : String)
  | toolCall (name : Option String) (id : Option String) (arguments : Option String)
  | toolCallResponse (response : Option String) (id : Option String)
  | reasoning (content : String)
  | generic (tag : String) (data : List (String × String))

/-- A normalized chat message (`ChatMessage` in the source). -/
structure ChatMessage where
  role : Option String
  parts : List MessagePart

/-- JavaScript truthiness of an optional string: `undefined` and the empty
string are falsy, every other string truthy. -/
def jsTruthyStr : Option String → Bool
  | some s => s != ""
  | none => false

/-- The per-segment dispatch of the loop body of `toSemanticMessage`
(semantic.ts lines 23-40): `if (part.text) ... else if (part.functionCall)
... else if (part.functionResponse) ...`; a segment matching no branch
contributes nothing.  `JSON.stringify(part.functionCall.args)` is
`undefined` when `args` is absent, hence the `Option.map`. -/
def convertPart (p : Part) : Option MessagePart :=
  if jsTruthyStr p.text then
    some (.text (p.text.getD ""))
  else
    match p.functionCall with
    | some fc => some (.toolCall fc.name fc.id (fc.args.map jsonOfJson))
    | none =>
      match p.functionResponse with
      | some fr => some (.toolCallResponse (fr.response.map jsonOfJson) fr.id)
      | none => none

/-- `toSemanticMessage` (semantic.ts lines 17-46): iterate the turns; the
message for a turn is pushed only inside `if (content.parts)` — an absent
segment list skips the turn, while a present (even empty) list is truthy
and yields a message. -/
def toSemanticMessage : List Content → List ChatMessage
  | [] => []
  | content :: rest =>
    match content.parts with
    | some ps => ⟨content.role, ps.filterMap convertPart⟩ :: toSemanticMessage rest
    | none => toSemanticMessage rest

/-- A JSON object literal from pre-rendered fields; a field whose value is
`none` stands for a property holding `undefined`, which `JSON.stringify`
omits. -/
def jsonObjOf (fields : List (String × Option String)) : String :=
  "\x7b" ++
    String.intercalate ","
      (fields.filterMap (fun kv => kv.2.map (fun v => jsonQuote kv.1 ++ ":" ++ v))) ++
    "\x7d"

/-- A JSON array literal from pre-rendered elements. -/
def jsonArrOf (elems : List String) : String :=
  "[" ++ String.intercalate "," elems ++ "]"

/-- `JSON.stringify` of a `FunctionCall` object.  Property order is
insertion order in JavaScript; the model fixes it as declared. -/
def jsonOfFunctionCall (fc : FunctionCall) : String :=
  jsonObjOf [("name", fc.name.map jsonQuote), ("id", fc.id.map jsonQuote),
             ("args", fc.args.map jsonOfJson)]

/-- `JSON.stringify` of a `FunctionResponse` object. -/
def jsonOfFunctionResponse (fr : FunctionResponse) : String :=
  jsonObjOf [("name", fr.name.map jsonQuote), ("id", fr.id.map jsonQuote),
             ("response", fr.response.map jsonOfJson)]

/-- `JSON.stringify` of a `Part` object. -/
def jsonOfPart (p : Part) : String :=
  jsonObjOf [("text", p.text.map jsonQuote),
             ("functionCall", p.functionCall.map jsonOfFunctionCall),
             ("functionResponse", p.functionResponse.map jsonOfFunctionResponse)]

/-- `JSON.stringify` of a `Content` object. -/
def jsonOfContent (c : Content) : String :=
  jsonObjOf [("role", c.role.map jsonQuote),
             ("parts", c.parts.map (fun ps => jsonArrOf (ps.map jsonOfPart)))]

/-- `JSON.stringify` of a `Content[]` array — the serialization used by the
decorator's private `logApiRequest` (semantic.ts line 169). -/
def jsonOfContents (cs : List Content) : String :=
  jsonArrOf (cs.map jsonOfContent)

/-- `JSON.stringify` of a `MessagePart` class instance: the `type`
discriminant is initialized first in every part class, so it serializes
first; constructor-assigned properties follow in declaration order, and
properties holding `undefined` are omitted. -/
def jsonOfMessagePart : MessagePart → String
  | .text content =>
      jsonObjOf [("type", some (jsonQuote "text")), ("content", some (jsonQuote content))]
  | .toolCall name id arguments =>
      jsonObjOf [("type", some (jsonQuote "tool_call")), ("name", name.map jsonQuote),
                 ("id", id.map jsonQuote), ("arguments", arguments.map jsonQuote)]
  | .toolCallResponse response id =>
      jsonObjOf [("type", some (jsonQuote "tool_call_response")),
                 ("response", response.map jsonQuote), ("id", id.map jsonQuote)]
  | .reasoning content =>
      jsonObjOf [("type", some (jsonQuote "reasoning")), ("content", some (jsonQuote content))]
  | .generic tag data =>
      jsonObjOf (("type", some (jsonQuote tag)) ::
        data.map (fun kv => (kv.1, some (jsonQuote kv.2))))

/-- `JSON.stringify` of a `ChatMessage` object. -/
def jsonOfChatMessage (m : ChatMessage) : String :=
  jsonObjOf [("role", m.role.map jsonQuote),
             ("parts", some (jsonArrOf (m.parts.map jsonOfMessagePart)))]

/-- `JSON.stringify` of a `ChatMessage[]` array. -/
def jsonOfChatMessages (ms : List ChatMessage) : String :=
  jsonArrOf (ms.map jsonOfChatMessage)

/-- The request text the specification describes for claim C2, following
the spec's words: "the serialization of the request content as normalized
by the Semantic Converter" — i.e. serialize the `toSemanticMessage` image
of the turn list.  To be compared with what the code actually logs. -/
def specSemanticConverterRequestText (cs : List Content) : String :=
  jsonOfChatMessages (toSemanticMessage cs)

/-- `GenerateContentResponseUsageMetadata`: the token counters tracked by
the decorator (all optional numbers). -/
structure UsageMetadata where
  promptTokenCount : Option Int
  candidatesTokenCount : Option Int
  cachedContentTokenCount : Option Int
  thoughtsTokenCount : Option Int
  toolUsePromptTokenCount : Option Int
  totalTokenCount : Option Int

/-- A response candidate, restricted to the field the decorator reads
(`candidates?.[0]?.finishReason`). -/
structure Candidate where
  finishReason : Option String

/-- `GenerateContentResponse`, restricted to the fields the decorator
reads: `modelVersion`, `responseId`, `usageMetadata`, `candidates`. -/
structure GenerateContentResponse where
  modelVersion : Option String
  responseId : Option String
  usageMetadata : Option UsageMetadata
  candidates : Option (List Candidate)

/-- `GenerateContentConfig`, restricted to the fields the decorator reads
(`temperature`, `topP`, `topK`); numeric values modelled as integers since
the decorator only copies them. -/
structure GenerateContentConfig where
  temperature : Option Int
  topP : Option Int
  topK : Option Int

/-- `GenerateContentParameters`: the request the caller hands the
decorator — target model, turn list, optional generation config. -/
structure GenerateContentParameters where
  model : String
  contents : List Content
  config : Option GenerateContentConfig

/-- A thrown JavaScript value, as `_logApiError` inspects it:
`error instanceof Error` gives `message`/`name`, anything else is coerced
with `String(error)`; `isStructuredError` (an external classification
helper, modelled from the spec as "whether the thrown failure carries a
structured status code") yields the optional numeric status. -/
structure ErrVal where
  isErrorInstance : Bool
  message : String
  name : String
  stringValue : String
  structuredStatus : Option Int

/-- The JavaScript `a || b` fallback on an optional string: `undefined`
and the empty string both fall through to the default. -/
def jsOrStr : Option String → String → String
  | some s, dflt => if s = "" then dflt else s
  | none, dflt => dflt

/-- `response.candidates?.[0]?.finishReason`. -/
def finishReasonOf (r : GenerateContentResponse) : Option String :=
  (r.candidates.bind List.head?).bind Candidate.finishReason

/-- `JSON.stringify` of a usage-metadata object (model-fixed field order). -/
def jsonOfUsage (u : UsageMetadata) : String :=
  jsonObjOf [("promptTokenCount", u.promptTokenCount.map toString),
             ("candidatesTokenCount", u.candidatesTokenCount.map toString),
             ("cachedContentTokenCount", u.cachedContentTokenCount.map toString),
             ("thoughtsTokenCount", u.thoughtsTokenCount.map toString),
             ("toolUsePromptTokenCount", u.toolUsePromptTokenCount.map toString),
             ("totalTokenCount", u.totalTokenCount.map toString)]

/-- `JSON.stringify` of a candidate (model-fixed field order). -/
def jsonOfCandidate (c : Candidate) : String :=
  jsonObjOf [("finishReason", c.finishReason.map jsonQuote)]

/-- `JSON.stringify` of a response chunk (model-fixed field order). -/
def jsonOfResponse (r : GenerateContentResponse) : String :=
  jsonObjOf [("candidates", r.candidates.map (fun cs => jsonArrOf (cs.map jsonOfCandidate))),
             ("modelVersion", r.modelVersion.map jsonQuote),
             ("responseId", r.responseId.map jsonQuote),
             ("usageMetadata", r.usageMetadata.map jsonOfUsage)]

/-- `JSON.stringify` of an array of response chunks — the accumulated
stream body, `JSON.stringify(responses)`. -/
def jsonOfResponses (rs : List GenerateContentResponse) : String :=
  jsonArrOf (rs.map jsonOfResponse)

/-- `JSON.stringify` of a generation config (model-fixed field order). -/
def jsonOfConfig (c : GenerateContentConfig) : String :=
  jsonObjOf [("temperature", c.temperature.map toString),
             ("topP", c.topP.map toString),
             ("topK", c.topK.map toString)]

/-- A dynamically-typed JavaScript value flowing into `_logApiResponse`.
The wrapper's call at semantic.ts line 324 omits the `contents` argument,
so every later argument lands one parameter early and parameters receive
values of the "wrong" static type; this universe makes that call
representable exactly as JavaScript executes it. -/
inductive JVal where
  | undefinedVal
  | num (n : Int)
  | str (s : String)
  | usageVal (u : UsageMetadata)
  | contentsVal (cs : List Content)
  | configVal (c : GenerateContentConfig)

/-- `JSON.stringify` on a dynamic value: numbers render bare, strings
render quoted, objects/arrays recursively, and `undefined` yields
`undefined` (not a string). -/
def JVal.stringify : JVal → JVal
  | .undefinedVal => .undefinedVal
  | .num n => .str (toString n)
  | .str s => .str (jsonQuote s)
  | .usageVal u => .str (jsonOfUsage u)
  | .contentsVal cs => .str (jsonOfContents cs)
  | .configVal c => .str (jsonOfConfig c)

/-- `.length` of the serialized prompt (`content_str.length`); only a
string ever reaches this in the source's call sites. -/
def JVal.lengthOf : JVal → JVal
  | .str s => .num s.length
  | _ => .undefinedVal

/-- Optional-chained property access `generationConfig?.f` for a numeric
config field: any non-config value yields `undefined`. -/
def jvalConfigField (v : JVal) (f : GenerateContentConfig → Option Int) : Option Int :=
  match v with
  | .configVal c => f c
  | _ => none

/-- Optional-chained property access `usageMetadata?.f` for a token
counter: any non-usage value (including the JSON string the stream path
passes) yields `undefined`. -/
def jvalUsageField (v : JVal) (f : UsageMetadata → Option Int) : Option Int :=
  match v with
  | .usageVal u => f u
  | _ => none

/-- Lift `string | undefinedValined` into the dynamic universe. -/
def jvalOfOptStr : Option String → JVal
  | some s => .str s
  | none => .undefinedVal

/-- Lift an optional usage-metadata object into the dynamic universe. -/
def jvalOfOptUsage : Option UsageMetadata → JVal
  | some u => .usageVal u
  | none => .undefinedVal

/-- Lift an optional generation config into the dynamic universe. -/
def jvalOfOptConfig : Option GenerateContentConfig → JVal
  | some c => .configVal c
  | none => .undefinedVal

/-- Modelled from the spec (§3, Request event): model identifier, request
correlation id, serialized request payload — matching the positional
constructor call `new ApiRequestEvent(model, promptId, requestText)`. -/
structure ApiRequestEvent where
  model : String
  prompt_id : String
  request_text : String

/-- The generation-parameters snapshot of a Response event
(model, temperature, top-p, top-k). -/
structure GenSnapshot where
  model : JVal
  temperature : Option Int
  top_p : Option Int
  top_k : Option Int

/-- The prompt snapshot of a Response event (serialized prompt and its
length). -/
structure PromptSnapshot where
  prompt : JVal
  prompt_length : JVal

/-- The response snapshot of a Response event (finish reason, response id,
token counters). -/
structure ResponseSnapshot where
  finish_reason : JVal
  response_id : JVal
  input_token_count : Option Int
  output_token_count : Option Int
  cached_content_token_count : Option Int
  thoughts_token_count : Option Int
  tool_token_count : Option Int
  total_token_count : Option Int

/-- Modelled from the spec (§3, Response event): model identifier, elapsed
duration, correlation id, generation-parameters snapshot, prompt snapshot,
response snapshot, auth-mode tag, raw usage metadata, serialized response
text — matching the positional `new ApiResponseEvent(...)` call in
`_logApiResponse`.  Fields that can receive mis-typed values through the
shifted stream-path call are dynamic (`JVal`). -/
structure ApiResponseEvent where
  model : JVal
  duration_ms : JVal
  prompt_id : JVal
  gen_ai : GenSnapshot
  prompt : PromptSnapshot
  response : ResponseSnapshot
  auth_type : Option String
  usage_metadata : JVal
  response_text : JVal

/-- Modelled from the spec (§3, Error event): model identifier, error
message, elapsed duration, correlation id, auth-mode tag, error kind
label, optional numeric status code — matching the positional
`new ApiErrorEvent(...)` call in `_logApiError`. -/
structure ApiErrorEvent where
  model : String
  error_message : String
  duration_ms : Int
  prompt_id : String
  auth_type : Option String
  error_type : String
  status_code : Option Int

/-- One event handed to the sink. -/
inductive ApiEvent where
  | request (e : ApiRequestEvent)
  | response (e : ApiResponseEvent)
  | error (e : ApiErrorEvent)

/-- The private `logApiRequest` (semantic.ts lines 164-174): serialize the
normalized turn list and build the Request event. -/
def logApiRequestEvent (contents : List Content) (model : String)
    (promptId : String) : ApiRequestEvent :=
  ⟨model, promptId, jsonOfContents contents⟩

/-- The private `_logApiResponse` (semantic.ts lines 176-221), taking its
nine parameters as dynamic values so that both call sites — the correctly
aligned single-shot one and the argument-shifted stream one — are
representable.  `authType` stands for
`this.config.getContentGeneratorConfig()?.authType`. -/
def _logApiResponse (authType : Option String) (contents durationMs model prompt_id
    responseId usageMetadata responseText finish_reason generationConfig : JVal) :
    ApiResponseEvent :=
  let content_str := contents.stringify
  { model := model
    duration_ms := durationMs
    prompt_id := prompt_id
    gen_ai :=
      { model := model
        temperature := jvalConfigField generationConfig GenerateContentConfig.temperature
        top_p := jvalConfigField generationConfig GenerateContentConfig.topP
        top_k := jvalConfigField generationConfig GenerateContentConfig.topK }
    prompt :=
      { prompt := content_str
        prompt_length := content_str.lengthOf }
    response :=
      { finish_reason := finish_reason
        response_id := responseId
        input_token_count := jvalUsageField usageMetadata UsageMetadata.promptTokenCount
        output_token_count := jvalUsageField usageMetadata UsageMetadata.candidatesTokenCount
        cached_content_token_count :=
          jvalUsageField usageMetadata UsageMetadata.cachedContentTokenCount
        thoughts_token_count := jvalUsageField usageMetadata UsageMetadata.thoughtsTokenCount
        tool_token_count := jvalUsageField usageMetadata UsageMetadata.toolUsePromptTokenCount
        total_token_count := jvalUsageField usageMetadata UsageMetadata.totalTokenCount }
    auth_type := authType
    usage_metadata := usageMetadata
    response_text := responseText }

/-- The private `_logApiError` (semantic.ts lines 223-246). -/
def _logApiError (authType : Option String) (durationMs : Int) (error : ErrVal)
    (model prompt_id : String) : ApiErrorEvent :=
  { model := model
    error_message := if error.isErrorInstance then error.message else error.stringValue
    duration_ms := durationMs
    prompt_id := prompt_id
    auth_type := authType
    error_type := if error.isErrorInstance then error.name else "unknown"
    status_code := error.structuredStatus }

/-- Modelled from the spec: `toContents` (from the code-assist converter
module, outside this slice) normalizes the request's content-list union
into a plain turn list; on a request already holding a turn list — the
only shape the data model of §3 describes — it is the identity.  Per §4.2
only the logging path sees its output; the backend receives the original
request. -/
def toContents (contents : List Content) : List Content :=
  contents

/-- `generateContent` (semantic.ts lines 248-275).  The wrapped backend is
an explicit parameter (`Except` models fulfil/reject); `startTime` and
`endTime` are the two `Date.now()` readings, so `endTime - startTime` is
the computed `durationMs`.  Returns the events emitted to the sink, in
order, and the outcome surfaced to the caller. -/
def generateContent (authType : Option String)
    (backend : GenerateContentParameters → String → Except ErrVal GenerateContentResponse)
    (req : GenerateContentParameters) (userPromptId : String) (startTime endTime : Int) :
    List ApiEvent × Except ErrVal GenerateContentResponse :=
  let contents := toContents req.contents
  let requestEvent := ApiEvent.request (logApiRequestEvent (toContents req.contents) req.model userPromptId)
  match backend req userPromptId with
  | .ok response =>
    let durationMs := endTime - startTime
    ([requestEvent,
      .response (_logApiResponse authType
        (.contentsVal contents)
        (.num durationMs)
        (.str (jsOrStr response.modelVersion req.model))
        (.str userPromptId)
        (jvalOfOptStr response.responseId)
        (jvalOfOptUsage response.usageMetadata)
        (.str (jsonOfResponse response))
        (jvalOfOptStr (finishReasonOf response))
        (jvalOfOptConfig req.config))],
     .ok response)
  | .error e =>
    let durationMs := endTime - startTime
    ([requestEvent, .error (_logApiError authType durationMs e req.model userPromptId)],
     .error e)

/-- One step of what the wrapper's consumer observes while the sequence is
driven: a chunk forwarded to the caller, an event emitted to the sink, or
the original failure re-raised. -/
inductive TraceItem where
  | yield (r : GenerateContentResponse)
  | emit (e : ApiEvent)
  | raise (e : ErrVal)

/-- The `for await` loop body of `loggingStreamWrapper` (semantic.ts lines
312-321): push the chunk, overwrite `lastUsageMetadata` when the chunk's
is truthy, overwrite `finishReason` when the first candidate's is truthy,
yield the chunk.  Returns the final accumulators and the yield trace. -/
def streamLoop : List GenerateContentResponse → List GenerateContentResponse →
    Option UsageMetadata → Option String →
    List GenerateContentResponse × Option UsageMetadata × Option String × List TraceItem
  | [], responses, lastUsageMetadata, finishReason =>
    (responses, lastUsageMetadata, finishReason, [])
  | response :: rest, responses, lastUsageMetadata, finishReason =>
    let responses' := responses ++ [response]
    let lastUsageMetadata' :=
      if response.usageMetadata.isSome then response.usageMetadata else lastUsageMetadata
    let finishReason' :=
      if jsTruthyStr (finishReasonOf response) then finishReasonOf response else finishReason
    let rec' := streamLoop rest responses' lastUsageMetadata' finishReason'
    (rec'.1, rec'.2.1, rec'.2.2.1, .yield response :: rec'.2.2.2)

/-- `loggingStreamWrapper` (semantic.ts lines 301-343).  The backend
sequence is a list of chunks followed by either normal completion
(`streamFailure = none`) or a failure thrown after those chunks.  On
completion the source calls `_logApiResponse` **without the `contents`
argument** (line 324), so every value lands one parameter early and the
last two parameters receive `undefined`; the model reproduces that shift
verbatim.  `endTime` is the `Date.now()` reading at the terminal event. -/
def loggingStreamWrapper (authType : Option String)
    (chunks : List GenerateContentResponse) (streamFailure : Option ErrVal)
    (startTime endTime : Int) (userPromptId model : String) : List TraceItem :=
  let acc := streamLoop chunks [] none none
  let responses := acc.1
  let lastUsageMetadata := acc.2.1
  let finishReason := acc.2.2.1
  let yields := acc.2.2.2
  match streamFailure with
  | none =>
    let durationMs := endTime - startTime
    yields ++ [.emit (.response (_logApiResponse authType
        (.num durationMs)
        (.str (jsOrStr ((responses.head?).bind GenerateContentResponse.modelVersion) model))
        (.str userPromptId)
        (jvalOfOptStr ((responses.head?).bind GenerateContentResponse.responseId))
        (jvalOfOptUsage lastUsageMetadata)
        (.str (jsonOfResponses responses))
        (jvalOfOptStr finishReason)
        .undefinedVal
        .undefinedVal))]
  | some e =>
    let durationMs := endTime - startTime
    yields ++
      [.emit (.error (_logApiError authType durationMs e
          (jsOrStr ((responses.head?).bind GenerateContentResponse.modelVersion) model)
          userPromptId)),
       .raise e]

/-- `generateContentStream` (semantic.ts lines 277-299): emit the Request
event, attempt backend setup (a synchronous setup failure is logged as an
Error event and re-thrown, with duration to `setupTime`), otherwise hand
back the wrapper sequence.  The first component is the events emitted
eagerly during the call itself; driving the returned trace produces the
rest. -/
def generateContentStream (authType : Option String)
    (backendStream : GenerateContentParameters → String →
      Except ErrVal (List GenerateContentResponse × Option ErrVal))
    (req : GenerateContentParameters) (userPromptId : String)
    (startTime setupTime endTime : Int) :
    List ApiEvent × Except ErrVal (List TraceItem) :=
  let requestEvent := ApiEvent.request (logApiRequestEvent (toContents req.contents) req.model userPromptId)
  match backendStream req userPromptId with
  | .error e =>
    ([requestEvent, .error (_logApiError authType (setupTime - startTime) e req.model userPromptId)],
     .error e)
  | .ok stream =>
    ([requestEvent],
     .ok (loggingStreamWrapper authType stream.1 stream.2 startTime endTime userPromptId req.model))

/-- `countTokens` (semantic.ts lines 345-347): a pure pass-through — the
request and response shapes are opaque to the decorator, no event is
emitted, the backend's outcome is returned as-is. -/
def countTokens {Req Res : Type}
    (backend : Req → Except ErrVal Res) (req : Req) :
    List ApiEvent × Except ErrVal Res :=
  ([], backend req)

/-- `embedContent` (semantic.ts lines 349-353): a pure pass-through,
identical in shape to `countTokens`. -/
def embedContent {Req Res : Type}
    (backend : Req → Except ErrVal Res) (req : Req) :
    List ApiEvent × Except ErrVal Res :=
  ([], backend req)

/-- Chunk-forwarding trace items. -/
def isYieldItem : TraceItem → Bool
  | .yield _ => true
  | _ => false

/-- Emitted Response events. -/
def isEmitResponse : TraceItem → Bool
  | .emit (.response _) => true
  | _ => false

/-- Emitted Error events. -/
def isEmitError : TraceItem → Bool
  | .emit (.error _) => true
  | _ => false

/-!
## Helper lemmas
-/

theorem streamLoop_responses (cs : List GenerateContentResponse)
    (acc : List GenerateContentResponse) (lu : Option UsageMetadata)
    (fr : Option String) : (streamLoop cs acc lu fr).1 = acc ++ cs := by
  induction cs generalizing acc lu fr with
  | nil => simp [streamLoop]
  | cons c rest ih => simp [streamLoop, ih]

theorem streamLoop_trace (cs : List GenerateContentResponse)
    (acc : List GenerateContentResponse) (lu : Option UsageMetadata)
    (fr : Option String) :
    (streamLoop cs acc lu fr).2.2.2 = cs.map TraceItem.yield := by
  induction cs generalizing acc lu fr with
  | nil => simp [streamLoop]
  | cons c rest ih => simp [streamLoop, ih]

/-!
## Claims about the Semantic Converter
-/

/-- Closed form of the conversion loop: keep the turns with a present
segment list, map each to role plus the `filterMap` image of its
segments. -/
theorem toSemanticMessage_eq (cs : List Content) :
    toSemanticMessage cs =
      (cs.filter (fun c => c.parts.isSome)).map
        (fun c => ⟨c.role, (c.parts.getD []).filterMap convertPart⟩) := by
  induction cs with
  | nil => rfl
  | cons c rest ih =>
    cases hp : c.parts with
    | none => simp [toSemanticMessage, hp, ih]
    | some ps => simp [toSemanticMessage, hp, ih]

/-- C6: for every turn list, the converter's output is exactly the
turns with a present segment list, in order, each mapped to a message with
that turn's role and the in-order image of its recognized segments; a turn
with an absent segment list contributes no message at all. -/
theorem toSemanticMessage_mirrors_turns (cs : List Content) :
    toSemanticMessage cs =
      (cs.filter (fun c => c.parts.isSome)).map
        (fun c => ⟨c.role, (c.parts.getD []).filterMap convertPart⟩) ∧
    (toSemanticMessage cs).length = (cs.filter (fun c => c.parts.isSome)).length :=
  ⟨toSemanticMessage_eq cs, by rw [toSemanticMessage_eq cs]; simp⟩

/-- C10: a turn whose segment list is present but empty yields exactly
one message with that turn's role and an empty part list (the empty array
is truthy, so the turn is not skipped), while a turn whose segment list is
absent is dropped. -/
theorem empty_parts_turn_kept (role : Option String) (rest : List Content) :
    toSemanticMessage (⟨role, some []⟩ :: rest) = ⟨role, []⟩ :: toSemanticMessage rest ∧
    toSemanticMessage (⟨role, none⟩ :: rest) = toSemanticMessage rest :=
  ⟨rfl, rfl⟩

/-- C3, counterexample: a segment whose only present field is
`text := ""` — a segment whose only populated field is a text field, with
the string value `""` — produces no part at all, because `if (part.text)`
is false on the empty string; the claim's "exactly one `text` part ...
for any string value" fails at this input. -/
theorem text_segment_empty_string_counterexample :
    toSemanticMessage [⟨some "user", some [⟨some "", none, none⟩]⟩] =
      [⟨some "user", []⟩] ∧
    toSemanticMessage [⟨some "user", some [⟨some "", none, none⟩]⟩] ≠
      [⟨some "user", [.text ""]⟩] :=
  ⟨rfl, by simp [toSemanticMessage, convertPart, jsTruthyStr]⟩

/-- C3, amended: for every segment whose only present field is a text
field holding a nonempty string, the output is exactly one `text` part
with that string; the empty string is falsy in the dispatch and therefore
yields no part. -/
theorem text_segment_single_text_part (role : Option String) (s : String)
    (h : s ≠ "") :
    convertPart ⟨some s, none, none⟩ = some (.text s) ∧
    toSemanticMessage [⟨role, some [⟨some s, none, none⟩]⟩] = [⟨role, [.text s]⟩] := by
  have hp : convertPart ⟨some s, none, none⟩ = some (.text s) := by
    simp [convertPart, jsTruthyStr, h]
  exact ⟨hp, by simp [toSemanticMessage, hp]⟩

/-- C3, witness for the amended theorem at a concrete nonempty string. -/
theorem text_segment_single_text_part_witness :
    convertPart ⟨some "Hello", none, none⟩ = some (.text "Hello") ∧
    toSemanticMessage [⟨some "user", some [⟨some "Hello", none, none⟩]⟩] =
      [⟨some "user", [.text "Hello"]⟩] :=
  text_segment_single_text_part (some "user") "Hello" (by decide)

/-- C7: when more than one segment field is populated the dispatch is
text first, then function-call, then function-response, appending exactly
one part (a nonempty text wins over everything; an absent — or falsy
empty — text lets a present function-call win over a present
function-response); a dispatched function-call yields a `tool_call` part
whose `arguments` is the canonical serialization of the argument bag and
whose `name`/`id`/`arguments` are absent exactly when the source fields
are. -/
theorem part_dispatch_precedence :
    (∀ (role : Option String) (s : String) (fc : FunctionCall) (fr : FunctionResponse),
        s ≠ "" →
        toSemanticMessage [⟨role, some [⟨some s, some fc, some fr⟩]⟩] =
          [⟨role, [.text s]⟩]) ∧
    (∀ (role : Option String) (fc : FunctionCall) (fr : FunctionResponse),
        toSemanticMessage [⟨role, some [⟨none, some fc, some fr⟩]⟩] =
          [⟨role, [.toolCall fc.name fc.id (fc.args.map jsonOfJson)]⟩]) ∧
    (∀ (role : Option String) (fc : FunctionCall) (fr : FunctionResponse),
        toSemanticMessage [⟨role, some [⟨some "", some fc, some fr⟩]⟩] =
          [⟨role, [.toolCall fc.name fc.id (fc.args.map jsonOfJson)]⟩]) := by
  refine ⟨fun role s fc fr h => ?_, fun role fc fr => ?_, fun role fc fr => ?_⟩ <;>
    simp [toSemanticMessage, convertPart, jsTruthyStr, *]

/-- C7, witness: a segment carrying all three fields dispatches as text;
with the text absent it dispatches as a `tool_call` whose arguments are
the serialized bag. -/
theorem part_dispatch_precedence_witness :
    toSemanticMessage
        [⟨some "model",
          some [⟨some "hi", some ⟨some "f", some "1", some (.obj [("a", .num 1)])⟩,
                 some ⟨some "f", some "1", some .null⟩⟩]⟩] =
      [⟨some "model", [.text "hi"]⟩] ∧
    toSemanticMessage
        [⟨some "model",
          some [⟨none, some ⟨some "f", some "1", some (.obj [("a", .num 1)])⟩,
                 some ⟨some "f", some "1", some .null⟩⟩]⟩] =
      [⟨some "model",
        [.toolCall (some "f") (some "1") (some (jsonOfJson (.obj [("a", .num 1)])))]⟩] :=
  ⟨part_dispatch_precedence.1 (some "model") "hi" ⟨some "f", some "1", some (.obj [("a", .num 1)])⟩
      ⟨some "f", some "1", some .null⟩ (by decide),
   part_dispatch_precedence.2.1 (some "model") ⟨some "f", some "1", some (.obj [("a", .num 1)])⟩
      ⟨some "f", some "1", some .null⟩⟩

/-- C8: the converter is a total function of its input (defined here as a
plain function, hence pure and non-throwing): the empty turn list gives
the empty output, a turn with an absent segment list is skipped, a
segment with no recognized content — all fields absent, or only a falsy
empty text — is silently omitted (no error, no placeholder part), and no
input produces more messages than turns. -/
theorem converter_total_and_silent :
    toSemanticMessage [] = [] ∧
    (∀ (role : Option String) (rest : List Content),
        toSemanticMessage (⟨role, none⟩ :: rest) = toSemanticMessage rest) ∧
    (∀ (role : Option String) (ps : List Part) (rest : List Content),
        toSemanticMessage (⟨role, some (ps ++ [⟨none, none, none⟩])⟩ :: rest) =
          toSemanticMessage (⟨role, some ps⟩ :: rest)) ∧
    (∀ (role : Option String) (ps : List Part) (rest : List Content),
        toSemanticMessage (⟨role, some (ps ++ [⟨some "", none, none⟩])⟩ :: rest) =
          toSemanticMessage (⟨role, some ps⟩ :: rest)) ∧
    (∀ cs : List Content, (toSemanticMessage cs).length ≤ cs.length) := by
  refine ⟨rfl, fun role rest => rfl, fun role ps rest => ?_, fun role ps rest => ?_,
      fun cs => ?_⟩
  · simp [toSemanticMessage, List.filterMap_append, convertPart, jsTruthyStr]
  · simp [toSemanticMessage, List.filterMap_append, convertPart, jsTruthyStr]
  · rw [toSemanticMessage_eq cs]
    simpa using List.length_filter_le (fun c : Content => c.parts.isSome) cs

/-!
## Claims about the Instrumented Generator

Sample inputs used by concrete-instance theorems.
-/

/-- A usage-metadata sample. -/
def sampleUsage : UsageMetadata := ⟨some 1, some 2, none, none, none, some 3⟩

/-- A response chunk carrying every tracked field. -/
def sampleChunk : GenerateContentResponse :=
  ⟨some "gemini-2.5-pro", some "resp-1", some sampleUsage, some [⟨some "STOP"⟩]⟩

/-- A request with one text-only turn. -/
def sampleReq : GenerateContentParameters :=
  ⟨"gemini-req", [⟨some "user", some [⟨some "Hello", none, none⟩]⟩], none⟩

/-- A structured failure sample. -/
def sampleErr : ErrVal := ⟨true, "boom", "Error", "Error: boom", some 429⟩

/-- C9: token counting and embedding are pure pass-throughs — no event is
emitted and the backend's outcome (success or failure alike) is returned
unchanged. -/
theorem passthroughs_emit_no_events {Req Res : Type}
    (backend : Req → Except ErrVal Res) (req : Req) :
    (countTokens backend req).1 = [] ∧
    (countTokens backend req).2 = backend req ∧
    (embedContent backend req).1 = [] ∧
    (embedContent backend req).2 = backend req :=
  ⟨rfl, rfl, rfl, rfl⟩

/-- C4: a single-shot call emits exactly one Request event followed by
exactly one Response event on backend success and returns the backend's
response unchanged; on backend failure it emits exactly one Request event
followed by exactly one Error event, no Response event, and re-throws the
original failure unchanged. -/
theorem single_shot_event_discipline (authType : Option String)
    (backend : GenerateContentParameters → String → Except ErrVal GenerateContentResponse)
    (req : GenerateContentParameters) (pid : String) (t0 t1 : Int) :
    (∀ resp, backend req pid = .ok resp →
        (∃ qe se, (generateContent authType backend req pid t0 t1).1 =
            [.request qe, .response se]) ∧
        (generateContent authType backend req pid t0 t1).2 = .ok resp) ∧
    (∀ e, backend req pid = .error e →
        (∃ qe ee, (generateContent authType backend req pid t0 t1).1 =
            [.request qe, .error ee]) ∧
        (generateContent authType backend req pid t0 t1).2 = .error e) := by
  constructor
  · intro resp h
    constructor
    · simp only [generateContent, h]
      exact ⟨_, _, rfl⟩
    · simp only [generateContent, h]
  · intro e h
    constructor
    · simp only [generateContent, h]
      exact ⟨_, _, rfl⟩
    · simp only [generateContent, h]

/-- C4, witness: both branches at a concrete backend. -/
theorem single_shot_event_discipline_witness :
    ((∃ qe se, (generateContent none (fun _ _ => .ok sampleChunk) sampleReq "p1" 0 5).1 =
        [.request qe, .response se]) ∧
     (generateContent none (fun _ _ => .ok sampleChunk) sampleReq "p1" 0 5).2 =
        .ok sampleChunk) ∧
    ((∃ qe ee, (generateContent none (fun _ _ => .error sampleErr) sampleReq "p1" 0 5).1 =
        [.request qe, .error ee]) ∧
     (generateContent none (fun _ _ => .error sampleErr) sampleReq "p1" 0 5).2 =
        .error sampleErr) :=
  ⟨(single_shot_event_discipline none (fun _ _ => .ok sampleChunk) sampleReq "p1" 0 5).1
      sampleChunk rfl,
   (single_shot_event_discipline none (fun _ _ => .error sampleErr) sampleReq "p1" 0 5).2
      sampleErr rfl⟩

/-- C2, counterexample: the Request event's payload is
`JSON.stringify(toContents(req.contents))` — the turn list itself — not
the Semantic Converter's chat-message form: at a concrete one-turn request
the logged text and the Semantic-Converter serialization differ, so the
claim that the event "contains the serialization of the request content
as normalized by the Semantic Converter" fails. -/
theorem request_text_not_semantic_counterexample :
    (generateContent none (fun _ _ => .ok sampleChunk) sampleReq "p1" 0 5).1.head? =
      some (.request ⟨"gemini-req", "p1", jsonOfContents sampleReq.contents⟩) ∧
    jsonOfContents sampleReq.contents ≠
      specSemanticConverterRequestText sampleReq.contents :=
  ⟨rfl, by decide⟩

/-- C2, amended: for every single-shot and streaming call the first
emitted event is a Request event carrying the requested model id, the
correlation id, and the serialization of the request content as
normalized to a turn list by `toContents` (not the Semantic Converter's
chat-message form), while the backend receives the original request
object and its outcome is surfaced unchanged. -/
theorem request_event_first_with_turn_list_text (authType : Option String)
    (backend : GenerateContentParameters → String → Except ErrVal GenerateContentResponse)
    (backendStream : GenerateContentParameters → String →
      Except ErrVal (List GenerateContentResponse × Option ErrVal))
    (req : GenerateContentParameters) (pid : String) (t0 t1 t2 : Int) :
    (generateContent authType backend req pid t0 t1).1.head? =
      some (.request ⟨req.model, pid, jsonOfContents (toContents req.contents)⟩) ∧
    (generateContent authType backend req pid t0 t1).2 = backend req pid ∧
    (generateContentStream authType backendStream req pid t0 t1 t2).1.head? =
      some (.request ⟨req.model, pid, jsonOfContents (toContents req.contents)⟩) := by
  refine ⟨?_, ?_, ?_⟩
  · cases h : backend req pid <;> simp [generateContent, logApiRequestEvent, h]
  · cases h : backend req pid <;> simp [generateContent, h]
  · cases h : backendStream req pid <;>
      simp [generateContentStream, logApiRequestEvent, h]

/-- C5: when the backend stream fails after yielding its chunks, the
wrapper forwards exactly those chunks, then emits exactly one Error event
(shaped like the single-shot error path, with the first chunk's
model-version-or-fallback) and no Response event, and re-raises the
original failure, terminating the sequence. -/
theorem stream_failure_event_discipline (authType : Option String)
    (chunks : List GenerateContentResponse) (e : ErrVal) (t0 t1 : Int)
    (pid model : String) :
    loggingStreamWrapper authType chunks (some e) t0 t1 pid model =
      chunks.map TraceItem.yield ++
        [.emit (.error (_logApiError authType (t1 - t0) e
            (jsOrStr ((chunks.head?).bind GenerateContentResponse.modelVersion) model) pid)),
         .raise e] ∧
    (loggingStreamWrapper authType chunks (some e) t0 t1 pid model).countP isEmitResponse = 0 ∧
    (loggingStreamWrapper authType chunks (some e) t0 t1 pid model).countP isEmitError = 1 ∧
    (loggingStreamWrapper authType chunks (some e) t0 t1 pid model).countP isYieldItem =
      chunks.length := by
  have heq : loggingStreamWrapper authType chunks (some e) t0 t1 pid model =
      chunks.map TraceItem.yield ++
        [.emit (.error (_logApiError authType (t1 - t0) e
            (jsOrStr ((chunks.head?).bind GenerateContentResponse.modelVersion) model) pid)),
         .raise e] := by
    simp [loggingStreamWrapper, streamLoop_responses, streamLoop_trace]
  refine ⟨heq, ?_, ?_, ?_⟩ <;>
    simp [heq, List.countP_append, List.countP_map, isEmitResponse, isEmitError,
      isYieldItem, List.countP_cons, Function.comp]

/-- C1: evaluation of the stream success path at the failing input (one
chunk, normal completion).  The wrapper does emit exactly one Response
event after the chunk, but the call at semantic.ts line 324 omits the
`contents` argument of `_logApiResponse`, so the event's fields are
shifted: its model identifier is the correlation id (not the chunk's
model version), its duration slot holds the model-version string (not the
elapsed 42), its prompt_id slot holds the chunk's response id, its
response_id slot holds the usage-metadata object, its serialized-response
slot holds the finish reason instead of the serialized chunk array (which
lands in the raw-usage-metadata slot), its token counters read off a
string and come out absent, and its logged prompt is the stringified
duration. -/
theorem stream_response_argument_shift :
    ∃ ev : ApiResponseEvent,
      loggingStreamWrapper none [sampleChunk] none 0 42 "prompt-1" "gemini-req" =
        [.yield sampleChunk, .emit (.response ev)] ∧
      ev.model = .str "prompt-1" ∧
      ev.duration_ms = .str "gemini-2.5-pro" ∧
      ev.prompt_id = .str "resp-1" ∧
      ev.response.response_id = .usageVal sampleUsage ∧
      ev.usage_metadata = .str (jsonOfResponses [sampleChunk]) ∧
      ev.response_text = .str "STOP" ∧
      ev.response.total_token_count = none ∧
      ev.prompt.prompt = .str "42" ∧
      "prompt-1" ≠ jsOrStr sampleChunk.modelVersion "gemini-req" ∧
      "STOP" ≠ jsonOfResponses [sampleChunk] :=
  ⟨_, rfl, rfl, rfl, rfl, rfl, rfl, rfl, rfl, rfl, by decide, by decide⟩

end Telemetry
